import Mathlib

/-!
Verification development for `_DENA/resource/helpers.py`.

The module is embedded shallowly:

- Python floats reaching `get_omni_sources` are embedded as rationals.  Every
  float operation the function performs (comparisons, `% 0.5`, `* 10`, `+ 5`,
  truncation by `int(...)`) is exact on binary floating point in the relevant
  range, and `x % 0.5 == 0` holds for a float exactly when its rational value
  is an integer multiple of 1/2, so the rational embedding is faithful.
- pandas data frames are embedded as lists of row structures; row order is the
  file order, as in pandas.
- Machine-external geometry operations (CRS reprojection, buffering, dissolve,
  `ST_Intersects`, `gpd.clip`, `date_trunc`) are taken as explicit function
  parameters; geometries are abstract handles of type `Nat`.
- pandas and SQL comparisons of date and timestamp strings are embedded as
  lexicographic comparison of the character lists (`pyStrLt`, `pyStrLe`).
-/

/-- Left-pad a digit string with zeros to width `w`
(the sign-free core of Python `str.zfill` and of the `0`-padded format spec). -/
def padZeros (s : String) (w : Nat) : String :=
  if w ≤ s.length then s else String.mk (List.replicate (w - s.length) '0') ++ s

/-- Python `str.zfill`: zero-pad to width `w`, keeping a leading sign in front. -/
def pyZfill (s : String) (w : Nat) : String :=
  match s.data with
  | c :: rest =>
      if c = '+' ∨ c = '-' then String.mk [c] ++ padZeros (String.mk rest) (w - 1)
      else padZeros s w
  | [] => padZeros s w

/-- Python f-string `{i:04}` on an integer: zero-pad to total width 4,
the sign counting toward the width. -/
def pyFormat04 (i : Int) : String :=
  if i < 0 then "-" ++ padZeros (toString i.natAbs) 3 else padZeros (toString i.natAbs) 4

/-- Python f-string `{i:03}` on an integer (applied to non-negative values only
in the source). -/
def pyFormat03 (i : Int) : String :=
  if i < 0 then "-" ++ padZeros (toString i.natAbs) 2 else padZeros (toString i.natAbs) 3

/-- Python `int(...)` on an exact rational float value: truncation toward zero. -/
def pyInt (q : ℚ) : Int := if 0 ≤ q then ⌊q⌋ else ⌈q⌉

/-- Python `range(start, stop, 5)`, the step-5 range used by `get_omni_sources`:
all `start + 5*k` strictly below `stop`. -/
def pyRange5 (start stop : Int) : List Int :=
  (List.range ((stop - start + 4).toNat / 5)).map (fun k : ℕ => start + 5 * (k : Int))

/-- One omni source path, from the two f-strings in the loop body of
`get_omni_sources` (`i < 0` and `i >= 0` branches). -/
def omniSourceName (dir : String) (i : Int) : String :=
  if i < 0 then dir ++ "\\O_" ++ pyFormat04 i ++ ".src"
  else dir ++ "\\O_+" ++ pyFormat03 i ++ ".src"

/-- `get_omni_sources(lower, upper)`, parametrized by the package constant
`ACTIVE_SPACE_DIR` (imported from outside this module in the source).  The
three `assert` statements are modelled as `Except.error` results carrying the
source's messages.  `x % 0.5 == 0` is embedded as `(2 * x).den = 1` (the
rational `x` is an integer multiple of 1/2). -/
def get_omni_sources (activeSpaceDir : String) (lower upper : ℚ) :
    Except String (List String) :=
  if ¬(-30 ≤ upper ∧ upper ≤ 50 ∧ -30 ≤ lower ∧ lower ≤ 50 ∧ lower ≤ upper) then
    Except.error "Bounds must be ordered and between [-30, 50]."
  else if ¬(2 * upper).den = 1 then
    Except.error "Invalid upper limit. Value must be divisible by 0.5."
  else if ¬(2 * lower).den = 1 then
    Except.error "Invalid lower limit. Value must be divisible by 0.5."
  else
    Except.ok ((pyRange5 (pyInt (lower * 10)) (pyInt (upper * 10 + 5))).map
      (omniSourceName (activeSpaceDir ++ "\\data\\tuning")))

/-- The spec's naming convention for the gain field of a source file name:
a sign character (a literal `+` for non-negative gains) followed by the
zero-padded magnitude of the gain in tenths, three digits wide. -/
def specGainCode (g : Int) : String :=
  (if g < 0 then "-" else "+") ++ padZeros (toString g.natAbs) 3

/-- Modelled from the spec: an omni source path joined with a platform-specific
path separator `sep` under the `data`/`tuning` directory of the base install
location (the code itself never consults the platform separator here). -/
def specOmniPathSep (sep base : String) (g : Int) : String :=
  base ++ sep ++ "data" ++ sep ++ "tuning" ++ sep ++ "O_" ++ specGainCode g ++ ".src"

/-- One row of the tab-delimited microphone deployment metadata file, with the
columns `get_deployment` reads.  The `code` field is the string rendering of
the parsed cell value (the source applies `str(...)` before matching). -/
structure MetaRow where
  unit : String
  code : String
  year : Int
  lat : ℚ
  long : ℚ
  elevation : ℚ
  microphone_height : ℚ
deriving DecidableEq

/-- The result record of `get_deployment` (the fields of `Microphone` that the
function sets). -/
structure Microphone where
  lat : ℚ
  lon : ℚ
  z : ℚ
  name : String
deriving DecidableEq

/-- The normalization `get_deployment` applies to the metadata's `code`
column: any value whose string form has length at most 3 is replaced by its
`zfill(3)` rendering. -/
def normalizeRow (r : MetaRow) : MetaRow :=
  if r.code.length ≤ 3 then { r with code := pyZfill r.code 3 } else r

/-- The metadata frame after the `code`-column normalization line. -/
def normalizeCodes (md : List MetaRow) : List MetaRow := md.map normalizeRow

/-- The row predicate of the `.loc` selection in `get_deployment`:
`unit`, (normalized) `code` and `year` all equal the arguments. -/
def matchRow (unit site : String) (year : Int) (r : MetaRow) : Bool :=
  r.unit == unit && r.code == site && r.year == year

/-- `get_deployment(unit, site, year, filename, elevation)`, with the parsed
metadata file passed as a row list.  `.iat[0]` on an empty selection raises an
index error, modelled as `none`; otherwise the first selected row is used. -/
def get_deployment (unit site : String) (year : Int) (metadata : List MetaRow)
    (elevation : Bool := true) : Option Microphone :=
  match (normalizeCodes metadata).filter (matchRow unit site year) with
  | [] => none
  | r :: _ =>
      some ⟨r.lat, r.long,
        if elevation then r.elevation else r.microphone_height,
        unit ++ site ++ toString year⟩

/-- C1 counterexample data: a metadata file whose single deployment row has
raw code `9`. -/
def mdRaw9 : List MetaRow := [⟨"DENA", "9", 2018, 63, -150, 500, 2⟩]

/-- C7 counterexample data: two rows that both match unit `DENA`, normalized
code `009`, year 2018, with different coordinates. -/
def mdTwoRows : List MetaRow :=
  [⟨"DENA", "009", 2018, 1, 2, 3, 4⟩, ⟨"DENA", "009", 2018, 9, 8, 7, 6⟩]

/-- Lexicographic strict comparison of character lists: the comparison pandas
and SQL apply to the ISO date and timestamp strings of this module. -/
def charListLt : List Char → List Char → Bool
  | [], [] => false
  | [], _ :: _ => true
  | _ :: _, [] => false
  | a :: as, b :: bs =>
      if a < b then true else if b < a then false else charListLt as bs

/-- Python / pandas strict `<` on strings. -/
def pyStrLt (s t : String) : Bool := charListLt s.data t.data

/-- Python / pandas `<=` on strings. -/
def pyStrLe (s t : String) : Bool := !pyStrLt t s

/-- Python truthiness of the optional buffer distance
(`if mask_buffer_distance:`): `None` and `0` are both falsy. -/
def pyTruthy : Option Int → Bool
  | none => false
  | some n => n != 0

/-- The observable state of a GeoDataFrame mask: its CRS EPSG code, its
column names, and an abstract handle standing for its geometry column.
Column values are not tracked (`dissolve_field` is set to the constant 1). -/
structure GDF where
  crsEpsg : Int
  cols : List String
  geom : Nat
deriving DecidableEq

/-- `mask['dissolve_field'] = 1`: adds the column in place (pandas overwrites
an existing column of the same name rather than duplicating it). -/
def addCol (m : GDF) (c : String) : GDF :=
  if c ∈ m.cols then m else { m with cols := m.cols ++ [c] }

/-- The mask handling shared by the two query functions: reproject to EPSG
4326 when needed (`mask = mask.to_crs(...)` rebinds the local name to a fresh
frame, leaving the caller's object untouched), then optionally add the
dissolve column (`query_tracks` only), then buffer the geometry in place when
the buffer distance is truthy (project to EPSG 3338, buffer, project back).
Returns the local mask used for filtering together with the final state of
the caller's object: the caller's object is mutated exactly when no
reprojection copy was made. -/
def processMask (reproj buffer : Nat → Int → Nat) (withDissolveCol : Bool)
    (m0 : GDF) (mbd : Option Int) : GDF × GDF :=
  let m1 := if m0.crsEpsg ≠ 4326 then
      { m0 with crsEpsg := 4326, geom := reproj m0.geom 4326 } else m0
  let m2 := if withDissolveCol then addCol m1 "dissolve_field" else m1
  let m3 := if pyTruthy mbd then
      { m2 with geom := reproj (buffer (reproj m2.geom 3338) (mbd.getD 0)) 4326 }
    else m2
  (m3, if m0.crsEpsg ≠ 4326 then m0 else m3)

/-- One row of the `flight_points` table with the columns the `query_tracks`
SQL touches.  `ak_date` is `ak_datetime::date`; `geomEmpty` models
`geometry.is_empty` of the row's geometry. -/
structure DBRow where
  flight_id : Int
  altitude_ft : ℚ
  ak_datetime : String
  ak_date : String
  geom : Nat
  geomEmpty : Bool
deriving DecidableEq

/-- One output row of the `query_tracks` SELECT list. -/
structure TrackPoint where
  flight_id : Int
  altitude_m : ℚ
  ak_datetime : String
  ak_hourtime : String
  geom : Nat
  geomEmpty : Bool
deriving DecidableEq

/-- SQL `d BETWEEN lo AND hi` on date strings: inclusive on both ends. -/
def sqlBetween (d lo hi : String) : Bool := pyStrLe lo d && pyStrLe d hi

/-- The SELECT list of `query_tracks`, applied to a `flight_points` row `fp`
joined with a `flights` row `f = (id, flight_id)` (join condition
`f.id = fp.flight_id`): altitude converted from feet to meters, the original
timestamp, the hour-truncated timestamp, and the geometry. -/
def trackPointOf (truncHour : String → String) (fp : DBRow) (f : Int × Int) :
    TrackPoint :=
  { flight_id := f.2, altitude_m := fp.altitude_ft * (3048 / 10000),
    ak_datetime := fp.ak_datetime, ak_hourtime := truncHour fp.ak_datetime,
    geom := fp.geom, geomEmpty := fp.geomEmpty }

/-- The final `.loc` filter of `query_tracks` dropping rows whose geometry
`is_empty` holds. -/
def dropEmptyTracks (rows : List TrackPoint) : List TrackPoint :=
  rows.filter (fun r => !r.geomEmpty)

/-- `query_tracks(engine, start_date, end_date, mask, mask_buffer_distance)`.
The external store is passed as the `flight_points` and `flights` tables; the
SQL semantics of the generated query (inclusive BETWEEN on the date, the
optional `ST_Intersects` filter against the dissolved mask geometry, the
join, the ascending ORDER BY on `ak_datetime`) is evaluated here.  The result
pairs the returned rows with the final state of the caller's mask object. -/
def query_tracks (reproj buffer : Nat → Int → Nat) (dissolve : Nat → Nat)
    (intersects : Nat → Nat → Bool) (truncHour : String → String)
    (flight_points : List DBRow) (flights : List (Int × Int))
    (start_date end_date : String)
    (mask : Option GDF) (mask_buffer_distance : Option Int) :
    List TrackPoint × Option GDF :=
  let maskState := mask.map (fun m0 =>
    processMask reproj buffer true m0 mask_buffer_distance)
  let keep : DBRow → Bool := fun fp =>
    sqlBetween fp.ak_date start_date end_date &&
      (match maskState with
       | none => true
       | some pm => intersects fp.geom (dissolve pm.1.geom))
  let joined := (flight_points.filter keep).flatMap (fun fp =>
    (flights.filter (fun f => f.1 == fp.flight_id)).map (trackPointOf truncHour fp))
  (dropEmptyTracks (List.insertionSort
      (fun a b => pyStrLe a.ak_datetime b.ak_datetime = true) joined),
   maskState.map Prod.snd)

/-- The two on-disk ADS-B formats and their readers: `early` stands for the
`EarlyAdsb` reader over the `*.txt` glob, `current` for the `Adsb` reader
over the `*.TSV` glob. -/
inductive AdsbFormat
  | early
  | current
deriving DecidableEq

/-- One ADS-B track row with the fields `query_adsb` touches. -/
structure AdsbRow where
  time : String
  geom : Nat
  geomEmpty : Bool
deriving DecidableEq

/-- Digit-list evaluation for `py_int?`. -/
def digitsValAux : List Char → Nat → Option Nat
  | [], acc => some acc
  | c :: rest, acc =>
      if c.isDigit then digitsValAux rest (acc * 10 + (c.toNat - 48)) else none

/-- Python `int(...)` on a string: optional sign followed by digits (the
whitespace and underscore forms Python also accepts never arise from the
4-character date prefixes this module parses). `none` models the `ValueError`
Python raises on malformed input. -/
def py_int? (s : String) : Option Int :=
  match s.data with
  | [] => none
  | '-' :: [] => none
  | '+' :: [] => none
  | '-' :: c :: rest => (digitsValAux (c :: rest) 0).map (fun n => -(n : Int))
  | '+' :: c :: rest => (digitsValAux (c :: rest) 0).map (fun n => (n : Int))
  | cs => (digitsValAux cs 0).map (fun n => (n : Int))

/-- The file-format selection of `query_adsb`:
`int(start_date[:4]) <= 2019 and exclude_early_ADSB == False` chooses the
legacy reader and the `*.txt` glob, anything else the current reader and the
`*.TSV` glob; a malformed year prefix propagates Python's `ValueError`. -/
def adsb_format_selection (start_date : String) (exclude_early_ADSB : Bool) :
    Option (AdsbFormat × String) :=
  (py_int? (start_date.take 4)).map (fun y =>
    if y ≤ 2019 ∧ exclude_early_ADSB = false then (AdsbFormat.early, "*.txt")
    else (AdsbFormat.current, "*.TSV"))

/-- The rows produced by the chosen reader over the globbed files. -/
def pickReader (earlyRows currentRows : List AdsbRow) :
    AdsbFormat → List AdsbRow
  | AdsbFormat.early => earlyRows
  | AdsbFormat.current => currentRows

/-- The TIME-column row filter of `query_adsb`, keeping rows whose TIME lies
strictly between the start and the end date. -/
def adsbTimeFilter (sd ed : String) (rows : List AdsbRow) : List AdsbRow :=
  rows.filter (fun r => pyStrLt sd r.time && pyStrLt r.time ed)

/-- `gpd.clip(adsb, mask)`: each row is either dropped or kept with a new
(clipped) geometry; non-geometry columns are preserved.  The per-row
behaviour is the parameter `clipRow`. -/
def adsbClip (clipRow : AdsbRow → GDF → Option (Nat × Bool)) (m : GDF)
    (rows : List AdsbRow) : List AdsbRow :=
  rows.filterMap (fun r =>
    (clipRow r m).map (fun ge => { r with geom := ge.1, geomEmpty := ge.2 }))

/-- The final `.loc` filter of `query_adsb` dropping rows whose geometry
`is_empty` holds. -/
def dropEmptyGeoms (rows : List AdsbRow) : List AdsbRow :=
  rows.filter (fun r => !r.geomEmpty)

/-- `query_adsb(adsb_path, start_date, end_date, mask, mask_buffer_distance,
exclude_early_ADSB)`.  The files discovered by the glob and parsed by the two
readers are passed as `earlyRows` / `currentRows`.  The result carries the
chosen format (which reader object wraps the rows), the returned rows, and
the final state of the caller's mask object.  The `print` calls and the
in-place `set_crs` on the ADS-B frame (CRS metadata only) have no observable
effect on these.  `none` models the `ValueError` from a malformed year
prefix. -/
def query_adsb (reproj buffer : Nat → Int → Nat)
    (clipRow : AdsbRow → GDF → Option (Nat × Bool))
    (earlyRows currentRows : List AdsbRow)
    (start_date end_date : String)
    (mask : Option GDF) (mask_buffer_distance : Option Int)
    (exclude_early_ADSB : Bool) :
    Option (AdsbFormat × List AdsbRow × Option GDF) :=
  match adsb_format_selection start_date exclude_early_ADSB with
  | none => none
  | some (fmt, _pattern) =>
    let adsb1 := adsbTimeFilter start_date end_date
      (pickReader earlyRows currentRows fmt)
    match mask with
    | none => some (fmt, dropEmptyGeoms adsb1, none)
    | some m0 =>
      let pm := processMask reproj buffer false m0 mask_buffer_distance
      some (fmt, dropEmptyGeoms (adsbClip clipRow pm.1 adsb1), some pm.2)

theorem string_append_assoc (a b c : String) : a ++ b ++ c = a ++ (b ++ c) := by
  apply String.ext
  simp [String.data_append]

theorem omniSourceName_eq_specGainCode (dir : String) (g : Int) :
    omniSourceName dir g = dir ++ "\\O_" ++ specGainCode g ++ ".src" := by
  by_cases h : g < 0
  · simp only [omniSourceName, specGainCode, pyFormat04, if_pos h]
  · simp only [omniSourceName, specGainCode, pyFormat03, if_neg h]
    have h2 : ("\\O_" : String) ++ "+" = "\\O_+" := rfl
    rw [← string_append_assoc (dir ++ "\\O_") "+" (padZeros (toString g.natAbs) 3),
      string_append_assoc dir "\\O_" "+", h2]

theorem pyInt_intCast (n : ℤ) : pyInt (n : ℚ) = n := by
  unfold pyInt
  split
  · exact Int.floor_intCast n
  · exact Int.ceil_intCast n

theorem pyRange5_scaled (a b : ℤ) :
    pyRange5 (5 * a) (5 * b + 5) =
      (List.range (b - a + 1).toNat).map (fun k : ℕ => 5 * a + 5 * (k : ℤ)) := by
  unfold pyRange5
  have h1 : (5 * b + 5 - 5 * a + 4).toNat / 5 = (b - a + 1).toNat := by omega
  rw [h1]

/-- Concrete evaluation of `get_omni_sources` at `lower = upper = 0`
(shared by several witnesses below). -/
theorem get_omni_sources_zero (asd : String) :
    get_omni_sources asd 0 0 =
      Except.ok [asd ++ "\\data\\tuning" ++ "\\O_+" ++ "000" ++ ".src"] := by
  have hc : (-30 ≤ (0 : ℚ) ∧ (0 : ℚ) ≤ 50 ∧ -30 ≤ (0 : ℚ) ∧ (0 : ℚ) ≤ 50 ∧
      (0 : ℚ) ≤ 0) := by norm_num
  have h20 : (2 * (0 : ℚ)) = ((0 : ℤ) : ℚ) := by norm_num
  have hden : ((2 * (0 : ℚ)).den = 1) := by rw [h20, Rat.den_intCast]
  have e1 : pyInt ((0 : ℚ) * 10) = 0 := by
    rw [show ((0 : ℚ) * 10) = ((0 : ℤ) : ℚ) by norm_num]
    exact pyInt_intCast 0
  have e2 : pyInt ((0 : ℚ) * 10 + 5) = 5 := by
    rw [show ((0 : ℚ) * 10 + 5) = ((5 : ℤ) : ℚ) by norm_num]
    exact pyInt_intCast 5
  unfold get_omni_sources
  rw [if_neg (not_not_intro hc), if_neg (not_not_intro hden),
    if_neg (not_not_intro hden), e1, e2]
  rw [show pyRange5 0 5 = [0] by decide]
  rw [show List.map (omniSourceName (asd ++ "\\data\\tuning")) [0] =
      [omniSourceName (asd ++ "\\data\\tuning") 0] from rfl]
  rw [show omniSourceName (asd ++ "\\data\\tuning") 0 =
      asd ++ "\\data\\tuning" ++ "\\O_+" ++ pyFormat03 0 ++ ".src" from
    if_neg (by decide)]
  rfl

/-- C2: for every (lower, upper) pair with -30 ≤ lower ≤ upper ≤ 50 and both
multiples of 0.5, `get_omni_sources` returns a list of exactly
(upper-lower)/0.5 + 1 path strings, in strictly increasing gain order, each
encoding the gain in tenths as a fixed-width signed integer with a literal `+`
sign for non-negative values and zero-padded magnitude. -/
theorem get_omni_sources_valid_range (asd : String) (lower upper : ℚ)
    (hl : -30 ≤ lower) (hlu : lower ≤ upper) (hu : upper ≤ 50)
    (hhl : ∃ a : ℤ, lower = a / 2) (hhu : ∃ b : ℤ, upper = b / 2) :
    ∃ gains : List Int,
      get_omni_sources asd lower upper =
        Except.ok (gains.map (fun g =>
          asd ++ "\\data\\tuning" ++ "\\O_" ++ specGainCode g ++ ".src")) ∧
      (gains.length : ℚ) = (upper - lower) / (1 / 2) + 1 ∧
      gains.Pairwise (· < ·) ∧
      ∀ k : Nat, k < gains.length →
        ((gains.getD k 0 : ℤ) : ℚ) = 10 * lower + 5 * k := by
  obtain ⟨a, rfl⟩ := hhl
  obtain ⟨b, rfl⟩ := hhu
  have hab : a ≤ b := by
    have h2 : (a : ℚ) ≤ b := by linarith
    exact_mod_cast h2
  have hcond : (-30 ≤ (b : ℚ) / 2 ∧ (b : ℚ) / 2 ≤ 50 ∧ -30 ≤ (a : ℚ) / 2 ∧
      (a : ℚ) / 2 ≤ 50 ∧ (a : ℚ) / 2 ≤ (b : ℚ) / 2) :=
    ⟨by linarith, hu, hl, by linarith, hlu⟩
  have hbden : ((2 * ((b : ℚ) / 2)).den = 1) := by
    rw [show (2 * ((b : ℚ) / 2)) = ((b : ℤ) : ℚ) by ring, Rat.den_intCast]
  have haden : ((2 * ((a : ℚ) / 2)).den = 1) := by
    rw [show (2 * ((a : ℚ) / 2)) = ((a : ℤ) : ℚ) by ring, Rat.den_intCast]
  have e1 : pyInt ((a : ℚ) / 2 * 10) = 5 * a := by
    rw [show ((a : ℚ) / 2 * 10) = ((5 * a : ℤ) : ℚ) by push_cast; ring]
    exact pyInt_intCast _
  have e2 : pyInt ((b : ℚ) / 2 * 10 + 5) = 5 * b + 5 := by
    rw [show ((b : ℚ) / 2 * 10 + 5) = ((5 * b + 5 : ℤ) : ℚ) by push_cast; ring]
    exact pyInt_intCast _
  refine ⟨(List.range (b - a + 1).toNat).map (fun k : ℕ => 5 * a + 5 * (k : ℤ)),
    ?_, ?_, ?_, ?_⟩
  · have hfun : omniSourceName (asd ++ "\\data\\tuning") = fun g =>
        asd ++ "\\data\\tuning" ++ "\\O_" ++ specGainCode g ++ ".src" :=
      funext (omniSourceName_eq_specGainCode _)
    unfold get_omni_sources
    rw [if_neg (not_not_intro hcond), if_neg (not_not_intro hbden),
      if_neg (not_not_intro haden), e1, e2, pyRange5_scaled, hfun]
  · rw [List.length_map, List.length_range]
    have hnn : (0 : ℤ) ≤ b - a + 1 := by omega
    have h1 : (((b - a + 1).toNat : ℕ) : ℚ) = ((b - a + 1 : ℤ) : ℚ) := by
      exact_mod_cast congrArg (fun z : ℤ => (z : ℚ)) (Int.toNat_of_nonneg hnn)
    rw [h1]
    push_cast
    field_simp
  · refine List.Pairwise.map _ ?_ (List.pairwise_lt_range _)
    intro i j hij
    omega
  · intro k hk
    rw [List.getD_eq_getElem _ _ hk, List.getElem_map, List.getElem_range]
    push_cast
    ring

/-- Witness for C2 at the spec's example pair `lower = -5`, `upper = 5`. -/
theorem get_omni_sources_valid_range_witness :
    ∃ gains : List Int,
      get_omni_sources "ROOT" (-5) 5 =
        Except.ok (gains.map (fun g =>
          "ROOT" ++ "\\data\\tuning" ++ "\\O_" ++ specGainCode g ++ ".src")) ∧
      (gains.length : ℚ) = ((5 : ℚ) - (-5)) / (1 / 2) + 1 ∧
      gains.Pairwise (· < ·) ∧
      ∀ k : Nat, k < gains.length →
        ((gains.getD k 0 : ℤ) : ℚ) = 10 * (-5 : ℚ) + 5 * k :=
  get_omni_sources_valid_range "ROOT" (-5) 5 (by norm_num) (by norm_num)
    (by norm_num) ⟨-10, by norm_num⟩ ⟨10, by norm_num⟩

/-- C3: `get_omni_sources` takes an assertion-error branch whenever a bound is
outside [-30, 50], the bounds are misordered, or a bound is not a multiple of
0.5; it never returns a (possibly empty) `Except.ok` result for such inputs. -/
theorem get_omni_sources_invalid_bounds (asd : String) (lower upper : ℚ)
    (h : lower < -30 ∨ 50 < lower ∨ upper < -30 ∨ 50 < upper ∨ upper < lower ∨
      (¬∃ a : ℤ, lower = a / 2) ∨ (¬∃ b : ℤ, upper = b / 2)) :
    ∃ msg : String, get_omni_sources asd lower upper = Except.error msg := by
  by_cases h1 : (-30 ≤ upper ∧ upper ≤ 50 ∧ -30 ≤ lower ∧ lower ≤ 50 ∧
    lower ≤ upper)
  case neg =>
    unfold get_omni_sources
    rw [if_pos h1]
    exact ⟨_, rfl⟩
  by_cases h2 : (2 * upper).den = 1
  case neg =>
    unfold get_omni_sources
    rw [if_neg (not_not_intro h1), if_pos h2]
    exact ⟨_, rfl⟩
  by_cases h3 : (2 * lower).den = 1
  case neg =>
    unfold get_omni_sources
    rw [if_neg (not_not_intro h1), if_neg (not_not_intro h2), if_pos h3]
    exact ⟨_, rfl⟩
  exfalso
  obtain ⟨c1, c2, c3, c4, c5⟩ := h1
  have hlh : ∃ a : ℤ, lower = a / 2 := by
    refine ⟨(2 * lower).num, ?_⟩
    have hx := (Rat.den_eq_one_iff (2 * lower)).mp h3
    linarith
  have huh : ∃ b : ℤ, upper = b / 2 := by
    refine ⟨(2 * upper).num, ?_⟩
    have hx := (Rat.den_eq_one_iff (2 * upper)).mp h2
    linarith
  rcases h with h | h | h | h | h | h | h
  · linarith
  · linarith
  · linarith
  · linarith
  · linarith
  · exact h hlh
  · exact h huh

/-- Witness for C3: a lower bound below -30 produces an error result. -/
theorem get_omni_sources_invalid_bounds_witness :
    ∃ msg : String, get_omni_sources "ROOT" (-31) 0 = Except.error msg :=
  get_omni_sources_invalid_bounds "ROOT" (-31) 0 (Or.inl (by norm_num))

/-- C9 counterexample: the returned path is joined with a literal backslash,
so on a platform whose path separator is `/` it differs from the spec's
platform-separator join; the separator is not platform-specific. -/
theorem omni_path_not_platform_separator :
    get_omni_sources "base" 0 0 = Except.ok ["base\\data\\tuning\\O_+000.src"] ∧
    specOmniPathSep "/" "base" 0 = "base/data/tuning/O_+000.src" ∧
    "base\\data\\tuning\\O_+000.src" ≠ "base/data/tuning/O_+000.src" := by
  refine ⟨?_, by decide, by decide⟩
  rw [get_omni_sources_zero]
  rfl

/-- C9 amended: every path returned by `get_omni_sources` follows the naming
convention `O_{sign}{3-digit-tenths}.src` and is rooted under the
`data`/`tuning` directory of the base-install-location constant, joined with a
hard-coded backslash separator (regardless of platform). -/
theorem omni_paths_backslash_convention (asd : String) (lower upper : ℚ)
    (l : List String) (h : get_omni_sources asd lower upper = Except.ok l) :
    ∀ p ∈ l, ∃ g : ℤ,
      p = asd ++ "\\data\\tuning" ++ "\\O_" ++ specGainCode g ++ ".src" := by
  unfold get_omni_sources at h
  by_cases h1 : (-30 ≤ upper ∧ upper ≤ 50 ∧ -30 ≤ lower ∧ lower ≤ 50 ∧
    lower ≤ upper)
  case neg =>
    rw [if_pos h1] at h
    exact Except.noConfusion h
  rw [if_neg (not_not_intro h1)] at h
  by_cases h2 : (2 * upper).den = 1
  case neg =>
    rw [if_pos h2] at h
    exact Except.noConfusion h
  rw [if_neg (not_not_intro h2)] at h
  by_cases h3 : (2 * lower).den = 1
  case neg =>
    rw [if_pos h3] at h
    exact Except.noConfusion h
  rw [if_neg (not_not_intro h3)] at h
  injection h with h
  intro p hp
  rw [← h] at hp
  obtain ⟨g, _, rfl⟩ := List.mem_map.mp hp
  exact ⟨g, omniSourceName_eq_specGainCode _ g⟩

/-- Witness for the amended C9 at `lower = upper = 0`. -/
theorem omni_paths_backslash_convention_witness :
    ∃ g : ℤ, "R\\data\\tuning\\O_+000.src" =
      "R" ++ "\\data\\tuning" ++ "\\O_" ++ specGainCode g ++ ".src" :=
  omni_paths_backslash_convention "R" 0 0
    ["R" ++ "\\data\\tuning" ++ "\\O_+" ++ "000" ++ ".src"]
    (get_omni_sources_zero "R")
    "R\\data\\tuning\\O_+000.src" (by exact List.mem_singleton.mpr rfl)

theorem padZeros_length (s : String) (w : Nat) :
    (padZeros s w).length = max s.length w := by
  unfold padZeros
  split
  · omega
  · rw [String.length_append]
    have h1 : (String.mk (List.replicate (w - s.length) '0')).length =
        w - s.length := by
      show (List.replicate (w - s.length) '0').length = w - s.length
      exact List.length_replicate _ _
    omega

theorem pyZfill_length (s : String) (w : Nat) :
    (pyZfill s w).length = max s.length w ∨
      (pyZfill s w).length = 1 + max (s.length - 1) (w - 1) := by
  unfold pyZfill
  split
  next c rest heq =>
    by_cases hc : c = '+' ∨ c = '-'
    · rw [if_pos hc]
      refine Or.inr ?_
      rw [String.length_append, padZeros_length]
      have h1 : (String.mk [c]).length = 1 := rfl
      have h2 : (String.mk rest).length = rest.length := rfl
      have h3 : s.length = rest.length + 1 := by
        show s.data.length = rest.length + 1
        rw [heq]
        rfl
      omega
    · rw [if_neg hc]
      exact Or.inl (padZeros_length s w)
  next heq => exact Or.inl (padZeros_length s w)

/-- After normalization every `code` value has length at least 3, so a `site`
argument shorter than 3 characters can never match. -/
theorem normalizeRow_code_length (r : MetaRow) :
    3 ≤ (normalizeRow r).code.length := by
  unfold normalizeRow
  split
  case isTrue h =>
    show 3 ≤ (pyZfill r.code 3).length
    rcases pyZfill_length r.code 3 with h1 | h1 <;> omega
  case isFalse h => omega

/-- C1 counterexample: with the metadata row styled `9`, the site argument
`"009"` selects the row but the site argument `"9"` selects nothing, so the
two calls do not return the same coordinates. -/
theorem get_deployment_site9_differs :
    get_deployment "DENA" "009" 2018 mdRaw9 true =
      some ⟨63, -150, 500, "DENA0092018"⟩ ∧
    get_deployment "DENA" "9" 2018 mdRaw9 true = none :=
  ⟨rfl, rfl⟩

/-- C1 amended: only the metadata's `code` column is zero-padded, not the
`site` argument.  A `site` argument shorter than 3 characters (such as `"9"`)
matches no row at all, while `"009"` selects a row whose raw code is `"9"`;
the two calls agree only in that sense. -/
theorem get_deployment_zfill_column_only :
    (∀ (unit site : String) (year : Int) (md : List MetaRow) (elev : Bool),
      site.length < 3 → get_deployment unit site year md elev = none) ∧
    (∀ (unit : String) (year : Int) (r : MetaRow) (rest : List MetaRow),
      r.unit = unit → r.code = "9" → r.year = year →
      get_deployment unit "009" year (r :: rest) true =
        some ⟨r.lat, r.long, r.elevation, unit ++ "009" ++ toString year⟩) := by
  constructor
  · intro unit site year md elev hlen
    unfold get_deployment
    have hnil : (normalizeCodes md).filter (matchRow unit site year) = [] := by
      rw [List.filter_eq_nil_iff]
      intro r hr
      obtain ⟨r0, _, rfl⟩ := List.mem_map.mp hr
      have hge := normalizeRow_code_length r0
      have hne : (normalizeRow r0).code ≠ site := by
        intro he
        rw [he] at hge
        omega
      simp [matchRow, hne]
    rw [hnil]
  · intro unit year r rest hu hc hy
    unfold get_deployment
    have hnorm : normalizeRow r = { r with code := "009" } := by
      unfold normalizeRow
      rw [if_pos (by rw [hc]; decide)]
      rw [hc]
      rfl
    have hfilter : (normalizeCodes (r :: rest)).filter (matchRow unit "009" year) =
        { r with code := "009" } :: (normalizeCodes rest).filter (matchRow unit "009" year) := by
      show List.filter _ (normalizeRow r :: normalizeCodes rest) = _
      rw [hnorm, List.filter_cons_of_pos]
      simp [matchRow, hu, hy]
    rw [hfilter]
    rfl

/-- Witness for the amended C1 on the concrete metadata `mdRaw9`. -/
theorem get_deployment_zfill_column_only_witness :
    get_deployment "DENA" "9" 2018 mdRaw9 true = none ∧
    get_deployment "DENA" "009" 2018 mdRaw9 true =
      some ⟨63, -150, 500, "DENA" ++ "009" ++ toString (2018 : Int)⟩ :=
  ⟨get_deployment_zfill_column_only.1 "DENA" "9" 2018 mdRaw9 true (by decide),
   get_deployment_zfill_column_only.2 "DENA" 2018 ⟨"DENA", "9", 2018, 63, -150, 500, 2⟩ []
     rfl rfl rfl⟩

/-- C7 counterexample: with two ambiguously matching rows, `get_deployment`
does not fail; it returns the first matching row's coordinates. -/
theorem get_deployment_two_matches_no_failure :
    ((normalizeCodes mdTwoRows).filter (matchRow "DENA" "009" 2018)).length = 2 ∧
    get_deployment "DENA" "009" 2018 mdTwoRows true =
      some ⟨1, 2, 3, "DENA0092018"⟩ :=
  ⟨rfl, rfl⟩

/-- C7 amended: `get_deployment` fails exactly when no metadata row matches
the unit, normalized site code and year; when one or more rows match it
returns the first matching row's latitude, longitude and vertical coordinate
(elevation if the flag is true, microphone height otherwise), named
unit+site+year — even when the match is ambiguous. -/
theorem get_deployment_first_match :
    (∀ (unit site : String) (year : Int) (md : List MetaRow) (elev : Bool),
      ((normalizeCodes md).filter (matchRow unit site year) = [] ↔
        get_deployment unit site year md elev = none)) ∧
    (∀ (unit site : String) (year : Int) (md : List MetaRow) (elev : Bool)
      (pre : List MetaRow) (r : MetaRow) (suf : List MetaRow),
      normalizeCodes md = pre ++ r :: suf →
      (∀ p ∈ pre, matchRow unit site year p = false) →
      matchRow unit site year r = true →
      get_deployment unit site year md elev =
        some ⟨r.lat, r.long,
          if elev then r.elevation else r.microphone_height,
          unit ++ site ++ toString year⟩) := by
  constructor
  · intro unit site year md elev
    unfold get_deployment
    cases h : (normalizeCodes md).filter (matchRow unit site year) with
    | nil => simp
    | cons r rest => simp
  · intro unit site year md elev pre r suf hsplit hpre hr
    unfold get_deployment
    have hfil : (normalizeCodes md).filter (matchRow unit site year) =
        r :: List.filter (matchRow unit site year) suf := by
      rw [hsplit, List.filter_append]
      have hprenil : List.filter (matchRow unit site year) pre = [] := by
        rw [List.filter_eq_nil_iff]
        intro p hp
        rw [hpre p hp]
        exact Bool.false_ne_true
      rw [hprenil, List.filter_cons_of_pos hr]
      rfl
    rw [hfil]

/-- Witness for the amended C7 on `mdTwoRows` (first of the two matching rows
wins). -/
theorem get_deployment_first_match_witness :
    get_deployment "DENA" "009" 2018 mdTwoRows true =
      some ⟨(1 : ℚ), (2 : ℚ), (3 : ℚ), "DENA" ++ "009" ++ toString (2018 : Int)⟩ :=
  get_deployment_first_match.2 "DENA" "009" 2018 mdTwoRows true
    [] ⟨"DENA", "009", 2018, 1, 2, 3, 4⟩
    [⟨"DENA", "009", 2018, 9, 8, 7, 6⟩]
    rfl (by intro p hp; cases hp) rfl

theorem addCol_geom (m : GDF) (c : String) : (addCol m c).geom = m.geom := by
  unfold addCol
  split <;> rfl

theorem charListLt_irrefl (l : List Char) : charListLt l l = false := by
  induction l with
  | nil => rfl
  | cons c cs ih =>
      unfold charListLt
      rw [if_neg (lt_irrefl c), if_neg (lt_irrefl c)]
      exact ih

theorem pyStrLt_irrefl (s : String) : pyStrLt s s = false :=
  charListLt_irrefl s.data

/-- Characterization of a successful `query_adsb` call, used by several
claims below. -/
theorem query_adsb_some (reproj buffer : Nat → Int → Nat)
    (clipRow : AdsbRow → GDF → Option (Nat × Bool))
    (er cr : List AdsbRow) (sd ed : String)
    (mask : Option GDF) (mbd : Option Int) (ex : Bool)
    (fmt : AdsbFormat) (rows : List AdsbRow) (ms : Option GDF)
    (h : query_adsb reproj buffer clipRow er cr sd ed mask mbd ex =
      some (fmt, rows, ms)) :
    (∃ pat, adsb_format_selection sd ex = some (fmt, pat)) ∧
    ((mask = none ∧
        rows = dropEmptyGeoms (adsbTimeFilter sd ed (pickReader er cr fmt)) ∧
        ms = none) ∨
      (∃ m0, mask = some m0 ∧
        rows = dropEmptyGeoms (adsbClip clipRow
          (processMask reproj buffer false m0 mbd).1
          (adsbTimeFilter sd ed (pickReader er cr fmt))) ∧
        ms = some (processMask reproj buffer false m0 mbd).2)) := by
  cases hsel : adsb_format_selection sd ex with
  | none =>
      unfold query_adsb at h
      rw [hsel] at h
      exact Option.noConfusion h
  | some fg =>
      obtain ⟨fmt0, pat⟩ := fg
      cases mask with
      | none =>
          unfold query_adsb at h
          rw [hsel] at h
          simp only [Option.some.injEq, Prod.mk.injEq] at h
          obtain ⟨h1, h2, h3⟩ := h
          subst h1
          exact ⟨⟨pat, rfl⟩, Or.inl ⟨rfl, h2.symm, h3.symm⟩⟩
      | some m0 =>
          unfold query_adsb at h
          rw [hsel] at h
          simp only [Option.some.injEq, Prod.mk.injEq] at h
          obtain ⟨h1, h2, h3⟩ := h
          subst h1
          exact ⟨⟨pat, rfl⟩, Or.inr ⟨m0, rfl, h2.symm, h3.symm⟩⟩

/-- Every row of a clipped frame keeps the TIME value of some input row. -/
theorem adsbClip_time (clipRow : AdsbRow → GDF → Option (Nat × Bool))
    (m : GDF) (l : List AdsbRow) :
    ∀ r ∈ adsbClip clipRow m l, ∃ r0 ∈ l, r.time = r0.time := by
  intro r hr
  obtain ⟨r0, h0, hmap⟩ := List.mem_filterMap.mp hr
  cases hcl : clipRow r0 m with
  | none =>
      rw [hcl] at hmap
      exact Option.noConfusion hmap
  | some ge =>
      rw [hcl] at hmap
      injection hmap with hmap
      exact ⟨r0, h0, by rw [← hmap]⟩

theorem addCol_eta (m : GDF) (c : String) :
    ({ addCol m c with geom := m.geom }) = addCol m c := by
  unfold addCol
  split <;> rfl

/-- When the mask needs reprojection, the caller's object comes back
untouched. -/
theorem processMask_snd_of_ne (reproj buffer : Nat → Int → Nat) (wd : Bool)
    (m : GDF) (mbd : Option Int) (h : m.crsEpsg ≠ 4326) :
    (processMask reproj buffer wd m mbd).2 = m := by
  simp [processMask, h]

/-- The caller's mask after `query_tracks` mask handling when it was already
in EPSG 4326: the dissolve column is added in place and, for a truthy buffer
distance, the geometry is reassigned to the buffered one. -/
theorem processMask_snd_tracks_4326 (reproj buffer : Nat → Int → Nat)
    (m : GDF) (mbd : Option Int) (h : m.crsEpsg = 4326) :
    (processMask reproj buffer true m mbd).2 =
      { addCol m "dissolve_field" with
        geom := if pyTruthy mbd = true then
            reproj (buffer (reproj m.geom 3338) (mbd.getD 0)) 4326
          else m.geom } := by
  cases hb : pyTruthy mbd with
  | false =>
      simp [processMask, h, hb]
      exact (addCol_eta m "dissolve_field").symm
  | true =>
      simp [processMask, h, hb]
      rw [addCol_geom]

/-- The caller's mask after `query_adsb` mask handling when it was already in
EPSG 4326: for a truthy buffer distance the geometry is reassigned in place,
otherwise the object is unchanged. -/
theorem processMask_snd_adsb_4326 (reproj buffer : Nat → Int → Nat)
    (m : GDF) (mbd : Option Int) (h : m.crsEpsg = 4326) :
    (processMask reproj buffer false m mbd).2 =
      if pyTruthy mbd = true then
        { m with geom := reproj (buffer (reproj m.geom 3338) (mbd.getD 0)) 4326 }
      else m := by
  cases hb : pyTruthy mbd with
  | false => simp [processMask, h, hb]
  | true => simp [processMask, h, hb]

/-- C4: every row returned by `query_tracks` and by `query_adsb` has a
non-empty geometry; rows with empty geometry are removed before returning on
both the database-backed and the file-backed path. -/
theorem query_results_nonempty_geometry :
    (∀ (reproj buffer : Nat → Int → Nat) (dissolve : Nat → Nat)
      (intersects : Nat → Nat → Bool) (truncHour : String → String)
      (fps : List DBRow) (fls : List (Int × Int)) (sd ed : String)
      (mask : Option GDF) (mbd : Option Int),
      ∀ r ∈ (query_tracks reproj buffer dissolve intersects truncHour
        fps fls sd ed mask mbd).1, r.geomEmpty = false) ∧
    (∀ (reproj buffer : Nat → Int → Nat)
      (clipRow : AdsbRow → GDF → Option (Nat × Bool)) (er cr : List AdsbRow)
      (sd ed : String) (mask : Option GDF) (mbd : Option Int) (ex : Bool)
      (fmt : AdsbFormat) (rows : List AdsbRow) (ms : Option GDF),
      query_adsb reproj buffer clipRow er cr sd ed mask mbd ex =
        some (fmt, rows, ms) →
      ∀ r ∈ rows, r.geomEmpty = false) := by
  constructor
  · intro reproj buffer dissolve intersects truncHour fps fls sd ed mask mbd r hr
    simp only [query_tracks, dropEmptyTracks] at hr
    have h2 := (List.mem_filter.mp hr).2
    simpa using h2
  · intro reproj buffer clipRow er cr sd ed mask mbd ex fmt rows ms h r hr
    obtain ⟨_, hcase⟩ := query_adsb_some _ _ _ _ _ _ _ _ _ _ _ _ _ h
    rcases hcase with ⟨_, hrows, _⟩ | ⟨m0, _, hrows, _⟩ <;>
    · subst hrows
      unfold dropEmptyGeoms at hr
      have h2 := (List.mem_filter.mp hr).2
      simpa using h2

/-- Witness for C4: a concrete one-row database query returns that row, and
its geometry is non-empty. -/
theorem query_results_nonempty_geometry_witness :
    ({ flight_id := 42, altitude_m := (100 : ℚ) * (3048 / 10000),
       ak_datetime := "2020-01-01 05:00:00",
       ak_hourtime := "2020-01-01 05:00:00",
       geom := 3, geomEmpty := false } : TrackPoint).geomEmpty = false :=
  query_results_nonempty_geometry.1 (fun g _ => g) (fun g _ => g) id
    (fun _ _ => true) id
    [{ flight_id := 1, altitude_ft := 100,
       ak_datetime := "2020-01-01 05:00:00",
       ak_date := "2020-01-01", geom := 3, geomEmpty := false }] [(1, 42)]
    "2020-01-01" "2020-01-02" none none
    { flight_id := 42, altitude_m := (100 : ℚ) * (3048 / 10000),
      ak_datetime := "2020-01-01 05:00:00",
      ak_hourtime := "2020-01-01 05:00:00",
      geom := 3, geomEmpty := false }
    (List.mem_singleton.mpr rfl)

/-- C5: `query_adsb` selects the file format from the year of the start date:
year at or before 2019 with the override flag unset gives the legacy reader
(`EarlyAdsb`, `*.txt`); year after 2019 or the flag set gives the current
reader (`Adsb`, `*.TSV`); in particular `2019-06-01` is legacy exactly when
the flag is unset. -/
theorem adsb_format_selection_by_year :
    (∀ (sd : String) (y : Int) (ex : Bool), py_int? (sd.take 4) = some y →
      ((y ≤ 2019 ∧ ex = false) →
        adsb_format_selection sd ex = some (AdsbFormat.early, "*.txt")) ∧
      ((2019 < y ∨ ex = true) →
        adsb_format_selection sd ex = some (AdsbFormat.current, "*.TSV"))) ∧
    (∀ (reproj buffer : Nat → Int → Nat)
      (clipRow : AdsbRow → GDF → Option (Nat × Bool)) (er cr : List AdsbRow)
      (sd ed : String) (mask : Option GDF) (mbd : Option Int) (ex : Bool)
      (fmt : AdsbFormat) (rows : List AdsbRow) (ms : Option GDF),
      query_adsb reproj buffer clipRow er cr sd ed mask mbd ex =
        some (fmt, rows, ms) →
      ∃ pat, adsb_format_selection sd ex = some (fmt, pat)) ∧
    adsb_format_selection "2019-06-01" false =
      some (AdsbFormat.early, "*.txt") ∧
    adsb_format_selection "2019-06-01" true =
      some (AdsbFormat.current, "*.TSV") := by
  refine ⟨?_, ?_, by decide, by decide⟩
  · intro sd y ex hy
    constructor
    · intro hp
      unfold adsb_format_selection
      rw [hy]
      exact congrArg some (if_pos hp)
    · intro hc
      have hnot : ¬(y ≤ 2019 ∧ ex = false) := by
        rcases hc with hc | hc
        · exact fun hp => absurd hp.1 (not_le.mpr hc)
        · exact fun hp => by simp [hc] at hp
      unfold adsb_format_selection
      rw [hy]
      exact congrArg some (if_neg hnot)
  · intro reproj buffer clipRow er cr sd ed mask mbd ex fmt rows ms h
    exact (query_adsb_some _ _ _ _ _ _ _ _ _ _ _ _ _ h).1

/-- Witness for C5 at start date 2019-06-01 with the flag unset. -/
theorem adsb_format_selection_by_year_witness :
    adsb_format_selection "2019-06-01" false =
      some (AdsbFormat.early, "*.txt") :=
  (adsb_format_selection_by_year.1 "2019-06-01" 2019 false (by decide)).1
    ⟨by norm_num, rfl⟩

/-- C8: `query_adsb` keeps a loaded row only when its TIME value is strictly
between the start and the end date (boundary values are excluded), whereas
the database-backed `query_tracks` date pair is inclusive: a `flight_points`
row whose date equals the start or end date is still returned (here shown for
a mask-free query, joined against a matching `flights` row, with non-empty
geometry). -/
theorem adsb_dates_exclusive_tracks_inclusive :
    (∀ (reproj buffer : Nat → Int → Nat)
      (clipRow : AdsbRow → GDF → Option (Nat × Bool)) (er cr : List AdsbRow)
      (sd ed : String) (mask : Option GDF) (mbd : Option Int) (ex : Bool)
      (fmt : AdsbFormat) (rows : List AdsbRow) (ms : Option GDF),
      query_adsb reproj buffer clipRow er cr sd ed mask mbd ex =
        some (fmt, rows, ms) →
      ∀ r ∈ rows, pyStrLt sd r.time = true ∧ pyStrLt r.time ed = true ∧
        r.time ≠ sd ∧ r.time ≠ ed) ∧
    (∀ (reproj buffer : Nat → Int → Nat) (dissolve : Nat → Nat)
      (intersects : Nat → Nat → Bool) (truncHour : String → String)
      (fps : List DBRow) (fls : List (Int × Int)) (sd ed : String)
      (mbd : Option Int) (fp : DBRow) (f : Int × Int),
      fp ∈ fps → f ∈ fls → f.1 = fp.flight_id →
      pyStrLe sd fp.ak_date = true → pyStrLe fp.ak_date ed = true →
      fp.geomEmpty = false →
      trackPointOf truncHour fp f ∈
        (query_tracks reproj buffer dissolve intersects truncHour
          fps fls sd ed none mbd).1) := by
  constructor
  · intro reproj buffer clipRow er cr sd ed mask mbd ex fmt rows ms h r hr
    obtain ⟨_, hcase⟩ := query_adsb_some _ _ _ _ _ _ _ _ _ _ _ _ _ h
    have htime : ∃ r0 ∈ adsbTimeFilter sd ed (pickReader er cr fmt),
        r.time = r0.time := by
      rcases hcase with ⟨_, hrows, _⟩ | ⟨m0, _, hrows, _⟩
      · subst hrows
        unfold dropEmptyGeoms at hr
        exact ⟨r, (List.mem_filter.mp hr).1, rfl⟩
      · subst hrows
        unfold dropEmptyGeoms at hr
        exact adsbClip_time _ _ _ r (List.mem_filter.mp hr).1
    obtain ⟨r0, hr0, hteq⟩ := htime
    unfold adsbTimeFilter at hr0
    have hp := (List.mem_filter.mp hr0).2
    rw [Bool.and_eq_true] at hp
    obtain ⟨hp1, hp2⟩ := hp
    rw [hteq]
    refine ⟨hp1, hp2, ?_, ?_⟩
    · intro he
      rw [he, pyStrLt_irrefl] at hp1
      exact Bool.false_ne_true hp1
    · intro he
      rw [he, pyStrLt_irrefl] at hp2
      exact Bool.false_ne_true hp2
  · intro reproj buffer dissolve intersects truncHour fps fls sd ed mbd fp f
      hfp hf hid hsd hed hge
    simp only [query_tracks, dropEmptyTracks]
    rw [List.mem_filter]
    constructor
    · rw [(List.perm_insertionSort _ _).mem_iff, List.mem_flatMap]
      refine ⟨fp, ?_, ?_⟩
      · rw [List.mem_filter]
        exact ⟨hfp, by simp [sqlBetween, hsd, hed]⟩
      · rw [List.mem_map]
        exact ⟨f, List.mem_filter.mpr ⟨hf, beq_iff_eq.mpr hid⟩, rfl⟩
    · simp [trackPointOf, hge]

/-- Witness for C8: a row dated exactly on the start date is returned by the
database-backed query (inclusive lower bound). -/
theorem adsb_dates_exclusive_tracks_inclusive_witness :
    trackPointOf id
      { flight_id := 1, altitude_ft := 100,
        ak_datetime := "2019-06-01 05:00:00",
        ak_date := "2019-06-01", geom := 3, geomEmpty := false } (1, 42) ∈
      (query_tracks (fun g _ => g) (fun g _ => g) id (fun _ _ => true) id
        [{ flight_id := 1, altitude_ft := 100,
           ak_datetime := "2019-06-01 05:00:00",
           ak_date := "2019-06-01", geom := 3, geomEmpty := false }] [(1, 42)]
        "2019-06-01" "2019-06-02" none none).1 :=
  adsb_dates_exclusive_tracks_inclusive.2 (fun g _ => g) (fun g _ => g) id
    (fun _ _ => true) id
    [{ flight_id := 1, altitude_ft := 100,
       ak_datetime := "2019-06-01 05:00:00",
       ak_date := "2019-06-01", geom := 3, geomEmpty := false }] [(1, 42)]
    "2019-06-01" "2019-06-02" none
    { flight_id := 1, altitude_ft := 100,
      ak_datetime := "2019-06-01 05:00:00",
      ak_date := "2019-06-01", geom := 3, geomEmpty := false } (1, 42)
    (List.mem_singleton.mpr rfl) (by decide) rfl (by decide) (by decide) rfl

/-- C10: a buffer distance of 0 is treated exactly like no buffer distance in
both query functions (the buffering branch is guarded by truthiness), so the
results coincide. -/
theorem buffer_zero_treated_as_none :
    ∀ (reproj buffer : Nat → Int → Nat) (dissolve : Nat → Nat)
      (intersects : Nat → Nat → Bool) (truncHour : String → String)
      (fps : List DBRow) (fls : List (Int × Int))
      (clipRow : AdsbRow → GDF → Option (Nat × Bool)) (er cr : List AdsbRow)
      (sd ed : String) (mask : Option GDF) (ex : Bool),
      query_tracks reproj buffer dissolve intersects truncHour fps fls sd ed
          mask (some 0) =
        query_tracks reproj buffer dissolve intersects truncHour fps fls sd ed
          mask none ∧
      query_adsb reproj buffer clipRow er cr sd ed mask (some 0) ex =
        query_adsb reproj buffer clipRow er cr sd ed mask none ex := by
  intro reproj buffer dissolve intersects truncHour fps fls clipRow er cr
    sd ed mask ex
  have hpm : ∀ (wd : Bool) (m0 : GDF),
      processMask reproj buffer wd m0 (some 0) =
        processMask reproj buffer wd m0 none := by
    intro wd m0
    rfl
  constructor
  · cases mask with
    | none => rfl
    | some m0 =>
        unfold query_tracks
        simp only [hpm]
  · cases hsel : adsb_format_selection sd ex with
    | none =>
        unfold query_adsb
        rw [hsel]
    | some fg =>
        obtain ⟨fmt0, pat⟩ := fg
        cases mask with
        | none =>
            unfold query_adsb
            rw [hsel]
        | some m0 =>
            unfold query_adsb
            rw [hsel]
            simp only [hpm]

/-- C6 counterexample: a mask already in EPSG 4326 passed to `query_tracks`
is mutated in place — the caller's object gains a `dissolve_field` column —
contradicting the claim that the mask is never mutated beyond reprojection. -/
theorem query_tracks_mutates_mask :
    (query_tracks (fun g _ => g) (fun g _ => g) id (fun _ _ => true) id [] []
        "2020-01-01" "2020-01-02" (some ⟨4326, ["geometry"], 0⟩) none).2 =
      some ⟨4326, ["geometry", "dissolve_field"], 0⟩ ∧
    (query_tracks (fun g _ => g) (fun g _ => g) id (fun _ _ => true) id [] []
        "2020-01-01" "2020-01-02" (some ⟨4326, ["geometry"], 0⟩) none).2 ≠
      some ⟨4326, ["geometry"], 0⟩ := by
  constructor
  · rfl
  · decide

/-- C6 amended: whether the caller's mask is mutated depends on its CRS.  A
mask not in EPSG 4326 is reprojected into a fresh frame and the caller's
object is untouched by either query.  A mask already in EPSG 4326 is mutated
in place: `query_tracks` adds the `dissolve_field` column and, when the
buffer distance is truthy, reassigns the geometry to the buffered one;
`query_adsb` reassigns the geometry when the buffer distance is truthy and
otherwise leaves the caller's object unchanged. -/
theorem mask_mutation_characterized :
    ∀ (reproj buffer : Nat → Int → Nat) (dissolve : Nat → Nat)
      (intersects : Nat → Nat → Bool) (truncHour : String → String)
      (fps : List DBRow) (fls : List (Int × Int))
      (clipRow : AdsbRow → GDF → Option (Nat × Bool)) (er cr : List AdsbRow)
      (sd ed : String) (m : GDF) (mbd : Option Int) (ex : Bool),
      (m.crsEpsg ≠ 4326 →
        (query_tracks reproj buffer dissolve intersects truncHour fps fls
          sd ed (some m) mbd).2 = some m ∧
        (∀ fmt rows ms,
          query_adsb reproj buffer clipRow er cr sd ed (some m) mbd ex =
            some (fmt, rows, ms) → ms = some m)) ∧
      (m.crsEpsg = 4326 →
        (query_tracks reproj buffer dissolve intersects truncHour fps fls
          sd ed (some m) mbd).2 =
          some { addCol m "dissolve_field" with
                 geom := if pyTruthy mbd = true then
                     reproj (buffer (reproj m.geom 3338) (mbd.getD 0)) 4326
                   else m.geom } ∧
        (∀ fmt rows ms,
          query_adsb reproj buffer clipRow er cr sd ed (some m) mbd ex =
            some (fmt, rows, ms) →
          ms = some (if pyTruthy mbd = true then
              { m with geom := reproj (buffer (reproj m.geom 3338)
                (mbd.getD 0)) 4326 }
            else m))) := by
  intro reproj buffer dissolve intersects truncHour fps fls clipRow er cr
    sd ed m mbd ex
  have hq : (query_tracks reproj buffer dissolve intersects truncHour fps fls
      sd ed (some m) mbd).2 = some ((processMask reproj buffer true m mbd).2) :=
    rfl
  constructor
  · intro hcrs
    constructor
    · rw [hq, processMask_snd_of_ne _ _ _ _ _ hcrs]
    · intro fmt rows ms h
      obtain ⟨_, hcase⟩ := query_adsb_some _ _ _ _ _ _ _ _ _ _ _ _ _ h
      rcases hcase with ⟨hmn, _, _⟩ | ⟨m0, hm0, _, hms⟩
      · exact Option.noConfusion hmn
      · injection hm0 with hm0
        subst hm0
        rw [hms, processMask_snd_of_ne _ _ _ _ _ hcrs]
  · intro hcrs
    constructor
    · rw [hq, processMask_snd_tracks_4326 _ _ _ _ hcrs]
    · intro fmt rows ms h
      obtain ⟨_, hcase⟩ := query_adsb_some _ _ _ _ _ _ _ _ _ _ _ _ _ h
      rcases hcase with ⟨hmn, _, _⟩ | ⟨m0, hm0, _, hms⟩
      · exact Option.noConfusion hmn
      · injection hm0 with hm0
        subst hm0
        rw [hms, processMask_snd_adsb_4326 _ _ _ _ hcrs]

/-- Witness for the amended C6: a mask in EPSG 3338 is left untouched by both
queries. -/
theorem mask_mutation_characterized_witness :
    (query_tracks (fun g _ => g) (fun g _ => g) id (fun _ _ => true) id [] []
        "2020-01-01" "2020-01-02" (some ⟨3338, [], 0⟩) none).2 =
      some ⟨3338, [], 0⟩ ∧
    (∀ fmt rows ms,
      query_adsb (fun g _ => g) (fun g _ => g)
          (fun r _ => some (r.geom, r.geomEmpty)) [] []
          "2020-01-01" "2020-01-02" (some ⟨3338, [], 0⟩) none false =
        some (fmt, rows, ms) → ms = some ⟨3338, [], 0⟩) :=
  (mask_mutation_characterized (fun g _ => g) (fun g _ => g) id
    (fun _ _ => true) id [] [] (fun r _ => some (r.geom, r.geomEmpty)) [] []
    "2020-01-01" "2020-01-02" ⟨3338, [], 0⟩ none false).1 (by decide)
